import Mathlib

/-!
Verification of `cmscontrib/CleanFiles.py`: a content-addressed file store
with reference-counted garbage collection.  The script has two parts:

* `make_tombstone(session)` — rewrites the digest of every `Executable`
  record to `FileCacher.TOMBSTONE_DIGEST`, counting (and logging) how many
  records actually changed.  The Python function has no `return` statement,
  so it returns `None`.
* `clean_files(session, dry_run)` — lists all digests in the file store,
  subtracts, for each (entity class, digest column) pair in a hard-coded
  enumeration, the set of values found in that column (with the tombstone
  digest discarded from each found set before subtracting), then reports the
  orphan count, sums the orphans' sizes, and — unless `dry_run` — deletes
  each orphan from the store.

The embedding below is a direct translation.  Digests are strings; a digest
column that is nullable in the schema is projected as an `Option Digest`
(Python `None` becomes `none`), and the Python set subtraction
`files -= found_digests` — where `files` holds strings and `found_digests`
may hold strings and `None` — becomes a filter keeping the digests `d` with
`some d ∉ found`.
-/

namespace CMS

/-- A content digest: an opaque string identifier, the key of the file store. -/
abbrev Digest := String

/-- Modelled from the spec: `FileCacher.TOMBSTONE_DIGEST` lives in
`cms/db/filecacher.py`, which is not part of the sources here.  Per the spec
it is a single reserved sentinel digest meaning "no physical content backing
this record"; its concrete value is irrelevant to every property below, only
its identity as one fixed digest matters. -/
def TOMBSTONE_DIGEST : Digest := "x"

/-- `cms.db.Attachment`: one digest column. -/
structure Attachment where
  filename : String
  digest : Digest
deriving DecidableEq, Repr

/-- `cms.db.Executable`: one (non-nullable) digest column, plus other
columns (represented by `filename`) that `make_tombstone` must not touch. -/
structure Executable where
  filename : String
  digest : Digest
deriving DecidableEq, Repr

/-- `cms.db.File`: one digest column. -/
structure File where
  filename : String
  digest : Digest
deriving DecidableEq, Repr

/-- `cms.db.Manager`: one digest column. -/
structure Manager where
  filename : String
  digest : Digest
deriving DecidableEq, Repr

/-- `cms.db.PrintJob`: one digest column. -/
structure PrintJob where
  filename : String
  digest : Digest
deriving DecidableEq, Repr

/-- `cms.db.Statement`: one digest column. -/
structure Statement where
  language : String
  digest : Digest
deriving DecidableEq, Repr

/-- `cms.db.Testcase`: two digest columns, `input` and `output`. -/
structure Testcase where
  codename : String
  input : Digest
  output : Digest
deriving DecidableEq, Repr

/-- `cms.db.UserTest`: one digest column, `input`. -/
structure UserTest where
  language : String
  input : Digest
deriving DecidableEq, Repr

/-- `cms.db.UserTestExecutable`: one digest column. -/
structure UserTestExecutable where
  filename : String
  digest : Digest
deriving DecidableEq, Repr

/-- `cms.db.UserTestFile`: one digest column. -/
structure UserTestFile where
  filename : String
  digest : Digest
deriving DecidableEq, Repr

/-- `cms.db.UserTestManager`: one digest column. -/
structure UserTestManager where
  filename : String
  digest : Digest
deriving DecidableEq, Repr

/-- `cms.db.UserTestResult`: one nullable digest column, `output`
(it is set only after the user test has been evaluated). -/
structure UserTestResult where
  output : Option Digest
deriving DecidableEq, Repr

/-- The relational database state visible through the session: all
instances of the twelve entity classes enumerated in `clean_files`.
Modelled from the spec for the schema side: the class definitions
(`cms.db`) are not in the sources here; the spec fixes the enumerated set
of reference-bearing types and that presence of each of the digest columns
`input`, `output`, `digest` is type-dependent. -/
structure DB where
  attachments : List Attachment
  executables : List Executable
  files : List File
  managers : List Manager
  print_jobs : List PrintJob
  statements : List Statement
  testcases : List Testcase
  user_tests : List UserTest
  user_test_executables : List UserTestExecutable
  user_test_files : List UserTestFile
  user_test_managers : List UserTestManager
  user_test_results : List UserTestResult
deriving DecidableEq, Repr

/-- The database with no entity instances at all. -/
def emptyDB : DB :=
  { attachments := [], executables := [], files := [], managers := [],
    print_jobs := [], statements := [], testcases := [], user_tests := [],
    user_test_executables := [], user_test_files := [],
    user_test_managers := [], user_test_results := [] }

/-!
## make_tombstone (CleanFiles.py lines 41-47)

```python
def make_tombstone(session):
    count = 0
    for exe in session.query(Executable).all():
        if exe.digest != FileCacher.TOMBSTONE_DIGEST:
            count += 1
        exe.digest = FileCacher.TOMBSTONE_DIGEST
    logger.info("Replaced %d executables with the tombstone.", count)
```
-/

/-- The loop body of `make_tombstone`: for each executable in order,
bump the counter if its digest differs from the tombstone, and overwrite
its digest with the tombstone.  Returns the rewritten records and the
final counter value. -/
def tombstoneLoop : List Executable → List Executable × Nat
  | [] => ([], 0)
  | exe :: rest =>
      let r := tombstoneLoop rest
      ({ exe with digest := TOMBSTONE_DIGEST } :: r.1,
       (if exe.digest ≠ TOMBSTONE_DIGEST then 1 else 0) + r.2)

/-- The observable outcome of one `make_tombstone(session)` call:
the session state after the call, the count passed to `logger.info`,
and the Python return value (`none` models Python `None`; the function
body has no `return` statement). -/
structure TombstoneResult where
  session : DB
  logged : Nat
  ret : Option Nat
deriving DecidableEq, Repr

/-- `make_tombstone(session)`, translated from CleanFiles.py lines 41-47. -/
def make_tombstone (session : DB) : TombstoneResult :=
  let r := tombstoneLoop session.executables
  { session := { session with executables := r.1 },
    logged := r.2,
    ret := none }

/-- `make_tombstone` issues no file-store call (its body never constructs a
`FileCacher` nor touches one): its action on the combined
(session, store listing) state is `make_tombstone` on the session component
and the identity on the store component. -/
def make_tombstone_with_store (session : DB) (store : Finset Digest) :
    TombstoneResult × Finset Digest :=
  (make_tombstone session, store)

/-!
## clean_files (CleanFiles.py lines 50-78)

The column scan iterates over the hard-coded class list and, per class,
over the column names `"input"`, `"output"`, `"digest"`, keeping the
(class, column) pairs that pass `hasattr`.
-/

/-- The projected value lists of the (class, column) pairs scanned by
`clean_files`, in the source's iteration order (classes in the order of
the list at lines 55-57; columns in the order input, output, digest).
A nullable column projects Python `None` as `none`; a non-nullable column
always projects `some`. -/
def columnValues (db : DB) : List (List (Option Digest)) :=
  [ db.attachments.map (fun o => some o.digest),
    db.executables.map (fun o => some o.digest),
    db.files.map (fun o => some o.digest),
    db.managers.map (fun o => some o.digest),
    db.print_jobs.map (fun o => some o.digest),
    db.statements.map (fun o => some o.digest),
    db.testcases.map (fun o => some o.input),
    db.testcases.map (fun o => some o.output),
    db.user_tests.map (fun o => some o.input),
    db.user_test_executables.map (fun o => some o.digest),
    db.user_test_files.map (fun o => some o.digest),
    db.user_test_managers.map (fun o => some o.digest),
    db.user_test_results.map (fun o => o.output) ]

/-- One iteration of the scan loop (lines 60-67): build `found_digests`
from the column's values, `discard` the tombstone from it, and subtract it
from `files`.  The subtraction keeps exactly the store digests `d` with
`some d ∉ found`, matching the Python set difference in which `None` never
equals a digest string. -/
def removeColumn (files : Finset Digest) (vals : List (Option Digest)) :
    Finset Digest :=
  let found : Finset (Option Digest) := vals.toFinset
  let found := found.erase (some TOMBSTONE_DIGEST)
  files.filter (fun d => some d ∉ found)

/-- The orphan set computed by `clean_files` (lines 52-67): start from the
store listing and run the scan loop over every (class, column) pair. -/
def orphansOf (store : Finset Digest) (db : DB) : Finset Digest :=
  (columnValues db).foldl removeColumn store

/-- The observable outcome of one `clean_files(session, dry_run)` call:
the orphan set it reports (lines 68-72), the logged orphan count, the
total size summed over the orphans, the set of digests passed to
`filecacher.delete` (lines 73-78; empty on a dry run), and the resulting
store listing. -/
structure CleanResult where
  orphans : Finset Digest
  orphanCount : Nat
  totalSize : Nat
  deleted : Finset Digest
  storeAfter : Finset Digest
deriving DecidableEq

/-- `clean_files(session, dry_run)`, translated from CleanFiles.py lines
50-78.  `store` is the digest set obtained from `filecacher.list()` and
`size` is `filecacher.get_size`. -/
def clean_files (store : Finset Digest) (size : Digest → Nat) (db : DB)
    (dry_run : Bool) : CleanResult :=
  let files := orphansOf store db
  let total_size := files.sum size
  { orphans := files,
    orphanCount := files.card,
    totalSize := total_size,
    deleted := if dry_run then ∅ else files,
    storeAfter := if dry_run then store else store \ files }

/-!
## The driver (CleanFiles.py lines 81-94)
-/

/-- The observable outcome of one run of `main()`: whether the session was
committed, the in-session database state at the end of the run, the
database state that is durable after the session closes (the session is
rolled back when not committed), the `clean_files` outcome, the resulting
store listing, and the process exit code. -/
structure MainResult where
  committed : Bool
  sessionDB : DB
  durableDB : DB
  clean : CleanResult
  storeAfter : Finset Digest
  exitCode : Nat

/-- `main()`, translated from CleanFiles.py lines 81-94: optionally run
`make_tombstone`, always run `clean_files`, commit only when not a dry
run; `main` returns `True` so the process exits 0. -/
def main (tombstone dry_run : Bool) (db : DB) (store : Finset Digest)
    (size : Digest → Nat) : MainResult :=
  let db1 := if tombstone then (make_tombstone db).session else db
  let r := clean_files store size db1 dry_run
  { committed := !dry_run,
    sessionDB := db1,
    durableDB := if dry_run then db else db1,
    clean := r,
    storeAfter := r.storeAfter,
    exitCode := 0 }

/-!
## Specification-side definitions

These follow the spec's words (for comparison against the code-side
definitions above), not the source.
-/

/-- All values sitting in digest-valued fields of entity instances,
across every scanned (class, column) pair. -/
def allFieldValues (db : DB) : List (Option Digest) :=
  (columnValues db).flatten

/-- The digest `d` appears in some digest-valued field of some entity
instance. -/
def Referenced (db : DB) (d : Digest) : Prop :=
  some d ∈ allFieldValues db

instance (db : DB) (d : Digest) : Decidable (Referenced db d) := by
  unfold Referenced; infer_instance

instance (db : DB) (d : Digest) : Decidable (Referenced db d) :=
  inferInstanceAs (Decidable (some d ∈ allFieldValues db))

/-- Follows the spec's words: the reference set "built by the union rule",
i.e. the union, over every enumerated (class, column) pair, of the non-null
values of that column. -/
def referencedSpec (db : DB) : Finset Digest :=
  ((allFieldValues db).filterMap id).toFinset

/-!
## Concrete states used by counterexamples and witnesses
-/

/-- One attachment referencing digest "a". -/
def dbAttach : DB :=
  { emptyDB with attachments := [{ filename := "f", digest := "a" }] }

/-- One executable whose digest is already the tombstone (the state every
executable is in right after `make_tombstone`). -/
def dbExeTomb : DB :=
  { emptyDB with executables := [{ filename := "f", digest := TOMBSTONE_DIGEST }] }

/-- One executable referencing digest "a". -/
def dbOneExe : DB :=
  { emptyDB with executables := [{ filename := "f", digest := "a" }] }

/-- One testcase with input digest "a" and output digest "b". -/
def dbTestcase : DB :=
  { emptyDB with testcases := [{ codename := "t", input := "a", output := "b" }] }

/-- A size oracle assigning one byte to every digest. -/
def unitSize : Digest → Nat := fun _ => 1

/-!
## Membership characterisations of the scan loop
-/

/-- A digest survives one scan iteration iff it was there before and it is
either the tombstone (which the `discard` removed from the found set) or
absent from the column's values. -/
theorem mem_removeColumn {files : Finset Digest} {vals : List (Option Digest)}
    {d : Digest} :
    d ∈ removeColumn files vals ↔
      d ∈ files ∧ (d = TOMBSTONE_DIGEST ∨ some d ∉ vals) := by
  have hrw : removeColumn files vals
      = files.filter
          (fun d => some d ∉ vals.toFinset.erase (some TOMBSTONE_DIGEST)) := rfl
  rw [hrw, Finset.mem_filter]
  constructor
  · rintro ⟨hf, h⟩
    refine ⟨hf, ?_⟩
    by_cases hT : d = TOMBSTONE_DIGEST
    · exact Or.inl hT
    · refine Or.inr fun hv => h ?_
      exact Finset.mem_erase.mpr
        ⟨fun hc => hT (Option.some.inj hc), List.mem_toFinset.mpr hv⟩
  · rintro ⟨hf, h⟩
    refine ⟨hf, fun hm => ?_⟩
    rcases Finset.mem_erase.mp hm with ⟨hne, hmem⟩
    rcases h with hT | hnv
    · exact hne (by rw [hT])
    · exact hnv (List.mem_toFinset.mp hmem)

/-- A digest survives the whole scan iff it was in the store listing and is
either the tombstone or absent from every scanned column. -/
theorem mem_foldl_removeColumn (cols : List (List (Option Digest)))
    (files : Finset Digest) (d : Digest) :
    d ∈ cols.foldl removeColumn files ↔
      d ∈ files ∧ (d = TOMBSTONE_DIGEST ∨ ∀ vals ∈ cols, some d ∉ vals) := by
  induction cols generalizing files with
  | nil => simp
  | cons c cs ih =>
      rw [List.foldl_cons, ih, mem_removeColumn, List.forall_mem_cons]
      tauto

/-- The orphan set of `clean_files`, characterised: a digest is an orphan
iff it is listed in the store and is either the tombstone or unreferenced. -/
theorem mem_orphansOf {store : Finset Digest} {db : DB} {d : Digest} :
    d ∈ orphansOf store db ↔
      d ∈ store ∧ (d = TOMBSTONE_DIGEST ∨ ¬ Referenced db d) := by
  rw [orphansOf, mem_foldl_removeColumn]
  simp only [Referenced, allFieldValues, List.mem_flatten]
  push_neg
  tauto

/-- Membership in the spec-side union-rule reference set is exactly
appearing (non-null) in some scanned field. -/
theorem mem_referencedSpec {db : DB} {d : Digest} :
    d ∈ referencedSpec db ↔ Referenced db d := by
  simp [referencedSpec, Referenced, List.mem_filterMap]

/-!
## The tombstone loop, characterised
-/

/-- After the loop, every executable's digest is the tombstone and every
other column is untouched. -/
theorem tombstoneLoop_fst : ∀ l : List Executable,
    (tombstoneLoop l).1 = l.map (fun exe => { exe with digest := TOMBSTONE_DIGEST })
  | [] => rfl
  | exe :: rest => by
      simp [tombstoneLoop, tombstoneLoop_fst rest]

/-- The loop's counter is the number of executables whose digest differed
from the tombstone on entry. -/
theorem tombstoneLoop_snd : ∀ l : List Executable,
    (tombstoneLoop l).2 = l.countP (fun exe => exe.digest != TOMBSTONE_DIGEST)
  | [] => rfl
  | exe :: rest => by
      simp only [tombstoneLoop, tombstoneLoop_snd rest, List.countP_cons]
      by_cases h : exe.digest = TOMBSTONE_DIGEST <;>
        simp [h, Nat.add_comm]

/-- Projecting the digest column after the loop yields the tombstone for
every record. -/
theorem map_digest_tombstoneLoop (l : List Executable) :
    ((tombstoneLoop l).1).map Executable.digest
      = List.replicate l.length TOMBSTONE_DIGEST := by
  induction l with
  | nil => rfl
  | cons e rest ih => simp [tombstoneLoop, ih, List.replicate_succ]

/-- The loop preserves the number of records. -/
theorem tombstoneLoop_length (l : List Executable) :
    ((tombstoneLoop l).1).length = l.length := by
  rw [tombstoneLoop_fst, List.length_map]

/-- Running the loop on its own output counts zero changed records. -/
theorem tombstoneLoop_again (l : List Executable) :
    (tombstoneLoop ((tombstoneLoop l).1)).2 = 0 := by
  induction l with
  | nil => rfl
  | cons e rest ih => simp [tombstoneLoop, ih]

/-!
## The claims
-/

/-- Claim C1, counterexample to the claim as stated: the claim says every
digest reported (and deleted) as an orphan differs from the tombstone
digest, for every store listing.  But when the tombstone digest itself is
in the store listing (here the whole listing) it is reported as an orphan
and passed to delete, because line 64 discards the tombstone from each
found set before subtracting, so nothing ever removes it from `files`. -/
theorem C1_counterexample :
    TOMBSTONE_DIGEST ∈ orphansOf {TOMBSTONE_DIGEST} emptyDB ∧
    TOMBSTONE_DIGEST ∈
      (clean_files {TOMBSTONE_DIGEST} unitSize emptyDB false).deleted := by
  decide

/-- Claim C1 (amended: provided the tombstone digest is not in the store
listing): the orphan set computed by `clean_files`, which is also the set
it deletes on a non-dry run, is exactly the store listing minus the
union-rule reference set; in particular every orphan is listed, is not the
tombstone, and appears in no digest-valued field, and conversely every
listed digest with those properties is an orphan. -/
theorem C1_orphans_eq_store_sdiff_referenced (store : Finset Digest)
    (size : Digest → Nat) (db : DB) (h : TOMBSTONE_DIGEST ∉ store) :
    orphansOf store db = store \ referencedSpec db ∧
    TOMBSTONE_DIGEST ∉ orphansOf store db ∧
    (clean_files store size db false).deleted = store \ referencedSpec db := by
  have key : orphansOf store db = store \ referencedSpec db := by
    ext d
    rw [mem_orphansOf, Finset.mem_sdiff, mem_referencedSpec]
    constructor
    · rintro ⟨hd, hT | hr⟩
      · exact absurd (hT ▸ hd) h
      · exact ⟨hd, hr⟩
    · rintro ⟨hd, hr⟩
      exact ⟨hd, Or.inr hr⟩
  refine ⟨key, fun hT => h (Finset.mem_sdiff.mp (key ▸ hT)).1, ?_⟩
  simpa [clean_files] using key

/-- Witness for C1 at a concrete input: store `{"a", "b"}` and a database
with one attachment referencing `"a"`. -/
theorem C1_witness :
    TOMBSTONE_DIGEST ∉ ({"a", "b"} : Finset Digest) ∧
    (orphansOf {"a", "b"} dbAttach = {"a", "b"} \ referencedSpec dbAttach ∧
     TOMBSTONE_DIGEST ∉ orphansOf {"a", "b"} dbAttach ∧
     (clean_files {"a", "b"} unitSize dbAttach false).deleted
       = {"a", "b"} \ referencedSpec dbAttach) :=
  ⟨by decide,
   C1_orphans_eq_store_sdiff_referenced {"a", "b"} unitSize dbAttach (by decide)⟩

/-- Claim C2, counterexample to the claim as stated: the claim says the
reference set used for the subtraction is the union of the non-null values
of every scanned digest field.  On a database whose one executable has the
tombstone digest (exactly the state `make_tombstone` produces), the
tombstone is in that union, yet the code does not subtract it: line 64
discards it from every found set, so it stays an orphan when listed. -/
theorem C2_counterexample :
    TOMBSTONE_DIGEST ∈ referencedSpec dbExeTomb ∧
    TOMBSTONE_DIGEST ∈ orphansOf {TOMBSTONE_DIGEST} dbExeTomb ∧
    orphansOf {TOMBSTONE_DIGEST} dbExeTomb
      ≠ {TOMBSTONE_DIGEST} \ referencedSpec dbExeTomb := by
  decide

/-- Claim C2 (amended): the reference set effectively used by
`clean_files` is the union, over exactly the enumerated entity types, of
the non-null values of each digest-valued field the type possesses, with
the tombstone digest then discarded from it: for every store listing and
database state, orphans = store minus (union-rule set minus tombstone). -/
theorem C2_referenced_set_used (store : Finset Digest) (db : DB) :
    orphansOf store db
      = store \ ((referencedSpec db).erase TOMBSTONE_DIGEST) := by
  ext d
  rw [mem_orphansOf, Finset.mem_sdiff, Finset.mem_erase, mem_referencedSpec]
  constructor
  · rintro ⟨hd, h⟩
    refine ⟨hd, fun hm => ?_⟩
    rcases h with hT | hr
    · exact hm.1 hT
    · exact hr hm.2
  · rintro ⟨hd, h⟩
    refine ⟨hd, ?_⟩
    by_cases hT : d = TOMBSTONE_DIGEST
    · exact Or.inl hT
    · exact Or.inr fun hr => h ⟨hT, hr⟩

/-- Claim C3, counterexample to the claim as stated: with the tombstone
digest present in the store listing alongside a referenced digest `"a"`,
the tombstone is passed to the file store's delete primitive on a non-dry
run. -/
theorem C3_counterexample :
    TOMBSTONE_DIGEST ∈
      (clean_files {TOMBSTONE_DIGEST, "a"} unitSize dbTestcase false).deleted := by
  decide

/-- Claim C3 (amended: provided the tombstone digest is not in the store
listing): for every database state and either run mode, the tombstone
digest is not in the computed orphan set and is never passed to the file
store's delete primitive. -/
theorem C3_tombstone_immune (store : Finset Digest) (size : Digest → Nat)
    (db : DB) (dry_run : Bool) (h : TOMBSTONE_DIGEST ∉ store) :
    TOMBSTONE_DIGEST ∉ (clean_files store size db dry_run).orphans ∧
    TOMBSTONE_DIGEST ∉ (clean_files store size db dry_run).deleted := by
  have horph : TOMBSTONE_DIGEST ∉ orphansOf store db :=
    fun hT => h (mem_orphansOf.mp hT).1
  constructor
  · simpa [clean_files] using horph
  · cases dry_run <;> simp [clean_files, horph]

/-- Witness for C3 at a concrete input: store `{"b"}` and the empty
database, on a dry run. -/
theorem C3_witness :
    TOMBSTONE_DIGEST ∉ ({"b"} : Finset Digest) ∧
    (TOMBSTONE_DIGEST ∉ (clean_files {"b"} unitSize emptyDB true).orphans ∧
     TOMBSTONE_DIGEST ∉ (clean_files {"b"} unitSize emptyDB true).deleted) :=
  ⟨by decide, C3_tombstone_immune {"b"} unitSize emptyDB true (by decide)⟩

/-- Claim C4 (confirmed): after one `make_tombstone` run every executable's
digest equals the tombstone sentinel, and a second consecutive run (no
intervening writes) logs a changed count of zero while leaving every digest
equal to the tombstone. -/
theorem C4_tombstone_idempotent (db : DB) :
    (make_tombstone db).session.executables.map Executable.digest
      = List.replicate db.executables.length TOMBSTONE_DIGEST ∧
    (make_tombstone (make_tombstone db).session).logged = 0 ∧
    (make_tombstone (make_tombstone db).session).session.executables.map
        Executable.digest
      = List.replicate db.executables.length TOMBSTONE_DIGEST := by
  refine ⟨?_, ?_, ?_⟩
  · exact map_digest_tombstoneLoop db.executables
  · exact tombstoneLoop_again db.executables
  · show ((tombstoneLoop ((tombstoneLoop db.executables).1)).1).map
        Executable.digest = _
    rw [map_digest_tombstoneLoop, tombstoneLoop_length]

/-- Claim C5, counterexample to the claim as stated: on a database with one
executable whose digest is `"a"` (so one record actually changes), the
Python function returns `None`, not the changed count 1; the count is only
logged. -/
theorem C5_counterexample :
    (make_tombstone dbOneExe).ret = none ∧
    (make_tombstone dbOneExe).ret ≠ some 1 ∧
    (make_tombstone dbOneExe).logged = 1 := by
  decide

/-- Claim C5 (amended): `make_tombstone` returns `None`; the count it
reports via the log equals the number of Executable records whose digest
differed from the tombstone sentinel before the call. -/
theorem C5_logged_and_return (db : DB) :
    (make_tombstone db).ret = none ∧
    (make_tombstone db).logged
      = db.executables.countP (fun exe => exe.digest != TOMBSTONE_DIGEST) :=
  ⟨rfl, tombstoneLoop_snd db.executables⟩

/-- Claim C6 (confirmed): for the same starting store listing and database
state, a dry run and a real run of `clean_files` compute the identical
orphan set and the identical total reclaimable size; the dry run leaves
the store listing unchanged while the real run removes exactly the orphan
set from it. -/
theorem C6_dry_run_equivalence (store : Finset Digest) (size : Digest → Nat)
    (db : DB) :
    (clean_files store size db true).orphans
      = (clean_files store size db false).orphans ∧
    (clean_files store size db true).totalSize
      = (clean_files store size db false).totalSize ∧
    (clean_files store size db true).storeAfter = store ∧
    (clean_files store size db false).storeAfter
      = store \ (clean_files store size db false).orphans :=
  ⟨rfl, rfl, rfl, rfl⟩

/-- Claim C7 (confirmed): on a dry run, whatever the tombstone flag,
`clean_files` passes no digest to delete, the driver does not commit the
session, and neither the store listing nor the durable database state is
changed by the run. -/
theorem C7_dry_run_no_mutation_no_commit (tombstone : Bool) (db : DB)
    (store : Finset Digest) (size : Digest → Nat) :
    (main tombstone true db store size).clean.deleted = ∅ ∧
    (main tombstone true db store size).committed = false ∧
    (main tombstone true db store size).storeAfter = store ∧
    (main tombstone true db store size).durableDB = db :=
  ⟨rfl, rfl, rfl, rfl⟩

/-- Claim C8 (confirmed): the total size reported by `clean_files` is the
sum over the computed orphan set of the per-digest sizes from the store,
and on a non-dry run the set of digests deleted is exactly the orphan set
whose sizes were summed. -/
theorem C8_size_accounting (store : Finset Digest) (size : Digest → Nat)
    (db : DB) (dry_run : Bool) :
    (clean_files store size db dry_run).totalSize
      = ((clean_files store size db dry_run).orphans).sum size ∧
    (clean_files store size db false).deleted = orphansOf store db ∧
    (clean_files store size db false).totalSize
      = ((clean_files store size db false).deleted).sum size :=
  ⟨rfl, rfl, rfl⟩

/-- Claim C9 (confirmed): after a non-dry run, a second non-dry run over
the resulting store listing with the unchanged database computes an empty
orphan set, deletes nothing, and leaves the store listing as it was. -/
theorem C9_convergence (store : Finset Digest) (size size2 : Digest → Nat)
    (db : DB) :
    orphansOf (clean_files store size db false).storeAfter db = ∅ ∧
    (clean_files (clean_files store size db false).storeAfter size2 db
        false).deleted = ∅ ∧
    (clean_files (clean_files store size db false).storeAfter size2 db
        false).storeAfter
      = (clean_files store size db false).storeAfter := by
  have key : orphansOf (store \ orphansOf store db) db = ∅ := by
    ext d
    simp only [Finset.not_mem_empty, iff_false]
    intro hmem
    have h1 := mem_orphansOf.mp hmem
    have h2 := Finset.mem_sdiff.mp h1.1
    exact h2.2 (mem_orphansOf.mpr ⟨h2.1, h1.2⟩)
  have hstore : (clean_files store size db false).storeAfter
      = store \ orphansOf store db := rfl
  refine ⟨by rw [hstore]; exact key, ?_, ?_⟩
  · have hdel : (clean_files (clean_files store size db false).storeAfter
        size2 db false).deleted
        = orphansOf (clean_files store size db false).storeAfter db := rfl
    rw [hdel, hstore, key]
  · have hafter : (clean_files (clean_files store size db false).storeAfter
        size2 db false).storeAfter
        = (clean_files store size db false).storeAfter
          \ orphansOf (clean_files store size db false).storeAfter db := rfl
    rw [hafter, hstore, key, Finset.sdiff_empty]

/-- Claim C10 (confirmed): `make_tombstone` modifies only the digest field
of Executable records — the file store listing, every other entity list of
the session, and every other Executable column (here `filename`, and the
record count) are unchanged. -/
theorem C10_make_tombstone_frame (db : DB) (store : Finset Digest) :
    (make_tombstone_with_store db store).2 = store ∧
    (make_tombstone db).session.attachments = db.attachments ∧
    (make_tombstone db).session.files = db.files ∧
    (make_tombstone db).session.managers = db.managers ∧
    (make_tombstone db).session.print_jobs = db.print_jobs ∧
    (make_tombstone db).session.statements = db.statements ∧
    (make_tombstone db).session.testcases = db.testcases ∧
    (make_tombstone db).session.user_tests = db.user_tests ∧
    (make_tombstone db).session.user_test_executables
      = db.user_test_executables ∧
    (make_tombstone db).session.user_test_files = db.user_test_files ∧
    (make_tombstone db).session.user_test_managers = db.user_test_managers ∧
    (make_tombstone db).session.user_test_results = db.user_test_results ∧
    (make_tombstone db).session.executables.map Executable.filename
      = db.executables.map Executable.filename ∧
    (make_tombstone db).session.executables.length
      = db.executables.length := by
  refine ⟨rfl, rfl, rfl, rfl, rfl, rfl, rfl, rfl, rfl, rfl, rfl, rfl, ?_, ?_⟩
  · simp [make_tombstone, tombstoneLoop_fst, List.map_map, Function.comp]
  · simp [make_tombstone, tombstoneLoop_fst]

end CMS
